import Mathlib

/-!
Verification of the monitoring aggregation engine of the
`openclaw-dashboard` repository (files `kuro_api_server.py` and
`scripts/system_monitor.py`).

The Python code is shallowly embedded: timestamps become an explicit
calendar record (`PyDateTime`), SQLite stores become explicit lists of
typed rows wrapped in a `Store` value that can also be absent or failing
(mirroring the `os.path.exists` check and the `try/except` around every
query), the network probe and the channel-probe collaborator become
explicit outcome values, and the JSON dictionaries built by the handlers
become values of the inductive type `JVal` (association lists preserve
Python dict insertion/assignment order).  Monetary amounts are modelled as
exact rationals; Python's `round(x, 2)` is modelled as ideal
round-half-to-even on rationals.
-/

/-- Model of a Python `datetime.datetime` value.  `year` is an integer so
that calendar arithmetic (subtracting days across a year boundary) never
truncates; valid Python datetimes have `1 ≤ month ≤ 12`,
`1 ≤ day ≤ monthLength year month`, `hour < 24`, `minute < 60`,
`second < 60`, `microsecond < 1000000`. -/
structure PyDateTime where
  year : ℤ
  month : ℕ
  day : ℕ
  hour : ℕ
  minute : ℕ
  second : ℕ
  microsecond : ℕ
deriving DecidableEq, Repr

namespace PyDateTime

/-- Packs the date fields into one integer; for valid dates this ordering
agrees with chronological (lexicographic) order because `month ≤ 12 < 13`
and `day ≤ 31 < 32`. -/
def dateP (t : PyDateTime) : ℤ :=
  (t.year * 13 + (t.month : ℤ)) * 32 + (t.day : ℤ)

/-- Time of day in microseconds. -/
def timeUs (t : PyDateTime) : ℕ :=
  ((t.hour * 60 + t.minute) * 60 + t.second) * 1000000 + t.microsecond

/-- Packs a datetime into one integer key; for valid datetimes the key
order coincides with chronological order, which is also the order the
SQLite `timestamp >= ?` string comparisons on zero-padded ISO-format
strings decide. -/
def key (t : PyDateTime) : ℤ :=
  t.dateP * 86400000000 + (t.timeUs : ℤ)

/-- The comparison performed by the SQL filters `timestamp >= ?`. -/
def timeLe (a b : PyDateTime) : Bool :=
  decide (a.key ≤ b.key)

/-- The strict comparison performed by the SQL filter `timestamp < ?`. -/
def timeLt (a b : PyDateTime) : Bool :=
  decide (a.key < b.key)

end PyDateTime

/-- Gregorian leap-year test, as Python's `calendar`/`datetime` use. -/
def isLeap (y : ℤ) : Bool :=
  (y % 4 == 0 && y % 100 != 0) || (y % 400 == 0)

/-- Number of days of month `m` of year `y`. -/
def monthLength (y : ℤ) (m : ℕ) : ℕ :=
  if m = 2 then (if isLeap y then 29 else 28)
  else if m = 4 ∨ m = 6 ∨ m = 9 ∨ m = 11 then 30
  else 31

namespace PyDateTime

/-- `t - timedelta(days=1)`: the same time of day on the previous
calendar day. -/
def prevDay (t : PyDateTime) : PyDateTime :=
  if 1 < t.day then { t with day := t.day - 1 }
  else if 1 < t.month then
    { t with month := t.month - 1, day := monthLength t.year (t.month - 1) }
  else
    { t with year := t.year - 1, month := 12, day := 31 }

/-- `t + timedelta(days=1)`: the same time of day on the next calendar
day. -/
def nextDay (t : PyDateTime) : PyDateTime :=
  if t.day < monthLength t.year t.month then { t with day := t.day + 1 }
  else if t.month < 12 then { t with month := t.month + 1, day := 1 }
  else { t with year := t.year + 1, month := 1, day := 1 }

/-- `t - timedelta(days=n)`. -/
def subDays (t : PyDateTime) : ℕ → PyDateTime
  | 0 => t
  | n + 1 => (t.prevDay).subDays n

/-- Days since 1970-01-01 (rata die with epoch 1970), computed by the
standard civil-from-days algorithm; used only to obtain the weekday. -/
def rataDie (t : PyDateTime) : ℤ :=
  let y : ℤ := if t.month ≤ 2 then t.year - 1 else t.year
  let m : ℤ := (t.month : ℤ)
  let era : ℤ := Int.fdiv y 400
  let yoe : ℤ := y - era * 400
  let mp : ℤ := if t.month ≤ 2 then m + 9 else m - 3
  let doy : ℤ := Int.fdiv (153 * mp + 2) 5 + (t.day : ℤ) - 1
  let doe : ℤ := yoe * 365 + Int.fdiv yoe 4 - Int.fdiv yoe 100 + doy
  era * 146097 + doe - 719468

/-- Python's `datetime.weekday()`: Monday = 0 … Sunday = 6
(1970-01-01 was a Thursday, weekday 3). -/
def weekday (t : PyDateTime) : ℕ :=
  ((t.rataDie + 3) % 7).toNat

/-- `.replace(hour=0, minute=0, second=0, microsecond=0)`. -/
def zeroTime (t : PyDateTime) : PyDateTime :=
  { t with hour := 0, minute := 0, second := 0, microsecond := 0 }

/-- `.replace(hour=0, minute=0, second=0)` — note: the microsecond field
is kept, exactly as in the 7-day-trend loop of `get_cost_data`. -/
def zeroHMS (t : PyDateTime) : PyDateTime :=
  { t with hour := 0, minute := 0, second := 0 }

/-- `t - timedelta(hours=1)`. -/
def subHour (t : PyDateTime) : PyDateTime :=
  if 1 ≤ t.hour then { t with hour := t.hour - 1 }
  else { t.prevDay with hour := 23 }

/-- Left-pads the decimal rendering of `n` to two digits. -/
def pad2 (n : ℕ) : String :=
  if n < 10 then String.append ("0") (toString n) else toString n

/-- Left-pads to four digits (years in ISO format). -/
def pad4 (n : ℕ) : String :=
  if n < 10 then String.append ("000") (toString n)
  else if n < 100 then String.append ("00") (toString n)
  else if n < 1000 then String.append ("0") (toString n)
  else toString n

/-- Left-pads to six digits (microseconds in ISO format). -/
def pad6 (n : ℕ) : String :=
  let s := toString n
  String.append (String.mk (List.replicate (6 - s.length) ('0'))) s

/-- Python's `datetime.isoformat()`. -/
def isoformat (t : PyDateTime) : String :=
  pad4 t.year.toNat ++ ("-") ++ pad2 t.month ++ ("-") ++ pad2 t.day ++
    ("T") ++ pad2 t.hour ++ (":") ++ pad2 t.minute ++ (":") ++ pad2 t.second ++
    (if t.microsecond = 0 then ("") else String.append (".") (pad6 t.microsecond))

/-- Python's `strftime("%m-%d")`, used for the 7-day-trend labels. -/
def monthDayLabel (t : PyDateTime) : String :=
  pad2 t.month ++ ("-") ++ pad2 t.day

end PyDateTime

/-- JSON-like values, the result type of every handler; objects are
association lists in Python dict insertion order. -/
inductive JVal where
  | num (q : ℚ)
  | str (s : String)
  | bool (b : Bool)
  | arr (xs : List JVal)
  | obj (fields : List (String × JVal))

namespace JVal

/-- Looks a key up in an object (first binding wins, as in an assoc list
produced by dict construction and `setKey` assignment). -/
def get (v : JVal) (k : String) : Option JVal :=
  match v with
  | .obj fs => fs.lookup k
  | _ => none

/-- Whether an object has key `k`. -/
def hasKey (v : JVal) (k : String) : Bool :=
  (v.get k).isSome

/-- All the given keys are present. -/
def hasKeys (v : JVal) (ks : List String) : Bool :=
  ks.all (fun k => v.hasKey k)

/-- Numeric field accessor. -/
def getNum (v : JVal) (k : String) : Option ℚ :=
  match v.get k with
  | some (.num q) => some q
  | _ => none

/-- String field accessor. -/
def getStr (v : JVal) (k : String) : Option String :=
  match v.get k with
  | some (.str s) => some s
  | _ => none

/-- Boolean field accessor. -/
def getBool (v : JVal) (k : String) : Option Bool :=
  match v.get k with
  | some (.bool b) => some b
  | _ => none

/-- Length of an array-valued field. -/
def getArrLen (v : JVal) (k : String) : Option ℕ :=
  match v.get k with
  | some (.arr xs) => some xs.length
  | _ => none

/-- Two-level field accessor. -/
def get2 (v : JVal) (k1 k2 : String) : Option JVal :=
  match v.get k1 with
  | some w => w.get k2
  | none => none

/-- The keys of an object, in order. -/
def keys (v : JVal) : List String :=
  match v with
  | .obj fs => fs.map (fun p => p.1)
  | _ => []

end JVal

/-- Python dict assignment `d[k] = v` on an association list: updates the
binding in place if the key exists, appends it otherwise. -/
def setKey (fs : List (String × JVal)) (k : String) (v : JVal) :
    List (String × JVal) :=
  match fs with
  | [] => [(k, v)]
  | (k', v') :: rest =>
      if k' = k then (k, v) :: rest else (k', v') :: setKey rest k v

/-- Round-half-to-even to an integer, the rounding mode of Python's
built-in `round`, modelled exactly on rationals.  It is computed on the
numerator/denominator pair (`q.num / q.den` is `⌊q⌋`, and
`2 * (q.num - ⌊q⌋ * q.den) < q.den` decides `q - ⌊q⌋ < 1/2`); the lemma
`roundHalfEven_eq` restates it in floor form. -/
def roundHalfEven (q : ℚ) : ℤ :=
  let f : ℤ := q.num / (q.den : ℤ)
  let r2 : ℤ := 2 * (q.num - f * (q.den : ℤ))
  if r2 < (q.den : ℤ) then f
  else if (q.den : ℤ) < r2 then f + 1
  else if f % 2 = 0 then f else f + 1

/-- Python's `round(q, 2)`. -/
def round2 (q : ℚ) : ℚ :=
  Rat.divInt (roundHalfEven (q * 100)) 100

/-- One row of the `model_calls` table of `cost_tracker.db`. -/
structure CostEvent where
  timestamp : PyDateTime
  model : String
  provider : String
  cost_usd : ℚ
  input_tokens : ℕ
  output_tokens : ℕ
  latency_ms : ℚ
  success : Bool
deriving DecidableEq, Repr

/-- One row of the `metrics` table of `system_metrics.db`. -/
structure MetricRow where
  timestamp : PyDateTime
  cpu_percent : ℚ
  memory_percent : ℚ
  disk_percent : ℚ
deriving DecidableEq, Repr

/-- One row of the `gateway_metrics` table of `system_metrics.db`. -/
structure GatewayMetricRow where
  timestamp : PyDateTime
  response_time_ms : ℚ
deriving DecidableEq, Repr

/-- One row of the `anomaly_events` table of `log_patterns.db`. -/
structure AnomalyEvent where
  timestamp : PyDateTime
  anomaly_type : String
  severity : String
  description : String
  suggested_action : String
deriving DecidableEq, Repr

/-- The contents of `system_metrics.db` (two tables). -/
structure MetricsDb where
  metrics : List MetricRow
  gateway_metrics : List GatewayMetricRow
deriving DecidableEq, Repr

/-- The state of one underlying SQLite store as the Python code sees it:
the file may be absent (`os.path.exists` is false), the connection or a
query may raise (caught by the surrounding `try/except`), or the data is
readable. -/
inductive Store (α : Type) where
  | absent
  | failing (msg : String)
  | present (data : α)

/-- `SUM(cost_usd) ... WHERE timestamp >= start` over the `model_calls`
rows. -/
def sumCostSince (events : List CostEvent) (start : PyDateTime) : ℚ :=
  ((events.filter (fun e => start.timeLe e.timestamp)).map
    (fun e => e.cost_usd)).sum

/-- `SUM(cost_usd) ... WHERE timestamp >= a AND timestamp < b`. -/
def sumCostBetween (events : List CostEvent) (a b : PyDateTime) : ℚ :=
  ((events.filter (fun e => a.timeLe e.timestamp && e.timestamp.timeLt b)).map
    (fun e => e.cost_usd)).sum

/-- Models `round(s, 2) if s else 0`: an SQL `SUM` is `NULL` when no row
matches and `0.0` is falsy in Python, so the rounded value is stored only
when the sum is non-zero (the two branches agree in value when costs are
non-negative). -/
def pyRoundOrZero (s : ℚ) : ℚ :=
  if s = 0 then 0 else round2 s

/-- `now.replace(hour=0, minute=0, second=0, microsecond=0)` — the lower
bound of the daily window. -/
def dailyStart (now : PyDateTime) : PyDateTime := now.zeroTime

/-- `(now - timedelta(days=now.weekday())).replace(hour=0, minute=0,
second=0, microsecond=0)` — the lower bound of the weekly window. -/
def weeklyStart (now : PyDateTime) : PyDateTime :=
  (now.subDays now.weekday).zeroTime

/-- `now.replace(day=1, hour=0, minute=0, second=0, microsecond=0)` — the
lower bound of the monthly window. -/
def monthlyStart (now : PyDateTime) : PyDateTime :=
  ({ now with day := 1 }).zeroTime

/-- The value stored under `data["daily"]`. -/
def dailyCost (now : PyDateTime) (events : List CostEvent) : ℚ :=
  pyRoundOrZero (sumCostSince events (dailyStart now))

/-- The value stored under `data["weekly"]`. -/
def weeklyCost (now : PyDateTime) (events : List CostEvent) : ℚ :=
  pyRoundOrZero (sumCostSince events (weeklyStart now))

/-- The value stored under `data["monthly"]`. -/
def monthlyCost (now : PyDateTime) (events : List CostEvent) : ℚ :=
  pyRoundOrZero (sumCostSince events (monthlyStart now))

/-- The distinct `(model, provider)` pairs in first-occurrence order (the
`GROUP BY model, provider` groups; SQLite's group order is unspecified,
first-occurrence order is one consistent choice and no claim depends on
it). -/
def modelKeys (events : List CostEvent) : List (String × String) :=
  events.foldl
    (fun acc e =>
      if (e.model, e.provider) ∈ acc then acc else acc ++ [(e.model, e.provider)])
    []

/-- Stable insertion into a cost-descending list (`ORDER BY SUM(cost_usd)
DESC`). -/
def insertDesc (x : (String × String) × ℚ) :
    List ((String × String) × ℚ) → List ((String × String) × ℚ)
  | [] => [x]
  | y :: ys => if y.2 < x.2 then x :: y :: ys else y :: insertDesc x ys

/-- Insertion sort, cost-descending. -/
def sortDesc : List ((String × String) × ℚ) → List ((String × String) × ℚ)
  | [] => []
  | x :: xs => insertDesc x (sortDesc xs)

/-- The `by_model` object: per-`(model, provider)` 7-day cost sums,
descending by cost, keyed `"{provider}/{model}"`, each value
`round(s, 2) if s else 0`. -/
def byModelFields (now : PyDateTime) (events : List CostEvent) :
    List (String × JVal) :=
  let cutoff := now.subDays 7
  let recent := events.filter (fun e => cutoff.timeLe e.timestamp)
  let groups := (modelKeys recent).map
    (fun mp => (mp, ((recent.filter
        (fun e => e.model = mp.1 ∧ e.provider = mp.2)).map
          (fun e => e.cost_usd)).sum))
  (sortDesc groups).map
    (fun g => (g.1.2 ++ ("/") ++ g.1.1, JVal.num (pyRoundOrZero g.2)))

/-- One entry of the 7-day trend: day `i` back from `now` (`i = 0` is
today); note `replace` here zeroes hour/minute/second but keeps the
microsecond, as the source does. -/
def trendEntry (now : PyDateTime) (events : List CostEvent) (i : ℕ) : JVal :=
  let dayStart := (now.subDays i).zeroHMS
  let dayEnd := (if i = 0 then now.nextDay else now.subDays (i - 1)).zeroHMS
  JVal.obj [(("date"), .str dayStart.monthDayLabel),
            (("cost"), .num (pyRoundOrZero (sumCostBetween events dayStart dayEnd)))]

/-- The `trend_7d` list (today first, then the six previous days). -/
def trendList (now : PyDateTime) (events : List CostEvent) : List JVal :=
  (List.range 7).map (fun i => trendEntry now events i)

/-- The default `stats` object of `get_cost_data`. -/
def statsDefault : List (String × JVal) :=
  [(("period_days"), .num 30), (("total_calls"), .num 0),
   (("total_input_tokens"), .num 0), (("total_output_tokens"), .num 0),
   (("total_cost_usd"), .num 0), (("avg_latency_ms"), .num 0),
   (("failed_calls"), .num 0), (("success_rate"), .num 0)]

/-- The 30-day `stats` object (count, token sums, cost sum, average
latency; `failed_calls` and `success_rate` are never updated by the
source). -/
def statsFields (now : PyDateTime) (events : List CostEvent) :
    List (String × JVal) :=
  let cutoff := now.subDays 30
  let rows := events.filter (fun e => cutoff.timeLe e.timestamp)
  let n := rows.length
  let latAvg : ℚ := if n = 0 then 0 else ((rows.map (fun e => e.latency_ms)).sum) / n
  [(("period_days"), .num 30), (("total_calls"), .num n),
   (("total_input_tokens"), .num ((rows.map (fun e => (e.input_tokens : ℚ))).sum)),
   (("total_output_tokens"), .num ((rows.map (fun e => (e.output_tokens : ℚ))).sum)),
   (("total_cost_usd"), .num (round2 ((rows.map (fun e => e.cost_usd)).sum))),
   (("avg_latency_ms"), .num (round2 latAvg)),
   (("failed_calls"), .num 0), (("success_rate"), .num 0)]

/-- The default `prediction` object of `get_cost_data`. -/
def predDefault : List (String × JVal) :=
  [(("predicted_monthly_cost"), .num 0), (("confidence"), .str ("low")),
   (("daily_average"), .num 0), (("trend"), .str ("stable")),
   (("based_on_days"), .num 0)]

/-- The `prediction` object: rebuilt from `data["monthly"]`,
`data["daily"]` and `now.day` when the monthly figure is positive,
otherwise left at the default.  The trend comparison uses Python's
`data["daily"] or 1`, which is `1` only when the daily figure is exactly
zero. -/
def predFields (monthly daily : ℚ) (daysUsed : ℕ) : List (String × JVal) :=
  if 0 < monthly then
    let dailyAvg : ℚ := monthly / ((max daysUsed 1 : ℕ) : ℚ)
    [(("predicted_monthly_cost"), .num (round2 (dailyAvg * 30))),
     (("confidence"), .str (if 10 < daysUsed then ("medium") else ("low"))),
     (("daily_average"), .num (round2 dailyAvg)),
     (("trend"), .str (if (if daily = 0 then 1 else daily) < dailyAvg
        then ("increasing") else ("stable"))),
     (("based_on_days"), .num daysUsed)]
  else predDefault

/-- The default result of `get_cost_data`, returned unchanged when the
cost store is absent or the connection fails. -/
def costDefault (now : PyDateTime) : JVal :=
  JVal.obj [(("timestamp"), .str now.isoformat),
    (("daily"), .num 0), (("weekly"), .num 0), (("monthly"), .num 0),
    (("by_model"), .obj []), (("trend_7d"), .arr []),
    (("prediction"), .obj predDefault), (("stats"), .obj statsDefault)]

/-- `MonitoringAPI.get_cost_data` (the CostAggregator). -/
def get_cost_data (now : PyDateTime) (store : Store (List CostEvent)) : JVal :=
  match store with
  | .absent => costDefault now
  | .failing _ => costDefault now
  | .present events =>
      let daily := dailyCost now events
      let weekly := weeklyCost now events
      let monthly := monthlyCost now events
      JVal.obj [(("timestamp"), .str now.isoformat),
        (("daily"), .num daily), (("weekly"), .num weekly),
        (("monthly"), .num monthly),
        (("by_model"), .obj (byModelFields now events)),
        (("trend_7d"), .arr (trendList now events)),
        (("prediction"), .obj (predFields monthly daily now.day)),
        (("stats"), .obj (statsFields now events))]

/-- The possible outcomes of the `urllib.request.urlopen` call of
`get_gateway_status`.  `urlopen` returns a response object only for
statuses in the 200–299 range (its `HTTPErrorProcessor` raises
`urllib.error.HTTPError` for every other status, carrying the code), and
any connection failure or timeout raises some other exception. -/
inductive ProbeOutcome where
  | response (status : ℕ) (elapsedMs : ℚ)
  | httpError (code : ℕ) (msg : String)
  | failure (msg : String)

/-- `MonitoringAPI.get_gateway_status` (the GatewayProbe). -/
def get_gateway_status (now : PyDateTime) (o : ProbeOutcome) : JVal :=
  match o with
  | .response s t =>
      JVal.obj [(("running"), .bool true), (("http_status"), .num s),
        (("response_time_ms"), .num (round2 t)), (("port_open"), .bool true),
        (("healthy"), .bool (s == 200)), (("timestamp"), .str now.isoformat)]
  | .httpError c m =>
      JVal.obj [(("running"), .bool true), (("http_status"), .num c),
        (("response_time_ms"), .num 0), (("port_open"), .bool true),
        (("healthy"), .bool false), (("error"), .str m),
        (("timestamp"), .str now.isoformat)]
  | .failure m =>
      JVal.obj [(("running"), .bool false), (("http_status"), .num 0),
        (("response_time_ms"), .num 0), (("port_open"), .bool false),
        (("healthy"), .bool false), (("error"), .str m),
        (("timestamp"), .str now.isoformat)]

/-- `ORDER BY timestamp DESC LIMIT 1`: the row with the maximal
timestamp key (ties resolved to the earlier row; SQLite leaves the tie
order unspecified and no claim depends on it). -/
def latestMetric (rows : List MetricRow) : Option MetricRow :=
  rows.foldl
    (fun acc r =>
      match acc with
      | none => some r
      | some b => if b.timestamp.key < r.timestamp.key then some r else some b)
    none

/-- `MonitoringAPI.get_performance_data` (the PerformanceAggregator). -/
def get_performance_data (now : PyDateTime) (store : Store MetricsDb) : JVal :=
  let latest := fun (db : MetricsDb) =>
    match latestMetric db.metrics with
    | some r => [(("cpu_percent"), JVal.num r.cpu_percent),
                 (("memory_percent"), JVal.num r.memory_percent),
                 (("disk_percent"), JVal.num r.disk_percent)]
    | none => [(("cpu_percent"), JVal.num 0), (("memory_percent"), JVal.num 0),
               (("disk_percent"), JVal.num 0)]
  match store with
  | .absent =>
      JVal.obj [(("timestamp"), .str now.isoformat),
        (("system"), .obj [(("cpu_percent"), .num 0), (("memory_percent"), .num 0),
          (("disk_percent"), .num 0), (("cpu_1h_avg"), .num 0)]),
        (("gateway"), .obj [(("response_1h_avg"), .num 0), (("error_1h_avg"), .num 0),
          (("total_requests"), .num 0)])]
  | .failing _ =>
      JVal.obj [(("timestamp"), .str now.isoformat),
        (("system"), .obj [(("cpu_percent"), .num 0), (("memory_percent"), .num 0),
          (("disk_percent"), .num 0), (("cpu_1h_avg"), .num 0)]),
        (("gateway"), .obj [(("response_1h_avg"), .num 0), (("error_1h_avg"), .num 0),
          (("total_requests"), .num 0)])]
  | .present db =>
      let hourAgo := now.subHour
      let cpuRows := db.metrics.filter (fun r => hourAgo.timeLe r.timestamp)
      let cpuAvg : ℚ :=
        if cpuRows.length = 0 then 0
        else ((cpuRows.map (fun r => r.cpu_percent)).sum) / cpuRows.length
      let gwRows := db.gateway_metrics.filter (fun r => hourAgo.timeLe r.timestamp)
      let gwAvg : ℚ :=
        if gwRows.length = 0 then 0
        else ((gwRows.map (fun r => r.response_time_ms)).sum) / gwRows.length
      JVal.obj [(("timestamp"), .str now.isoformat),
        (("system"), .obj (latest db ++
          [(("cpu_1h_avg"), .num (if cpuAvg = 0 then 0 else round2 cpuAvg))])),
        (("gateway"), .obj
          [(("response_1h_avg"), .num (if gwAvg = 0 then 0 else round2 gwAvg)),
           (("error_1h_avg"), .num 0),
           (("total_requests"), .num (if gwAvg = 0 then 0 else gwRows.length))])]

/-- `COUNT(*)` of anomalies with a given severity. -/
def countSev (l : List AnomalyEvent) (s : String) : ℕ :=
  (l.filter (fun e => e.severity == s)).length

/-- `COUNT(*)` of anomalies with a given type. -/
def countType (l : List AnomalyEvent) (s : String) : ℕ :=
  (l.filter (fun e => e.anomaly_type == s)).length

/-- The distinct values of `f` over `l`, in first-occurrence order (the
`GROUP BY` groups; SQLite's group order is unspecified and no claim
depends on it). -/
def distinctVals (f : AnomalyEvent → String) (l : List AnomalyEvent) :
    List String :=
  l.foldl (fun acc e => if f e ∈ acc then acc else acc ++ [f e]) []

/-- The `by_severity` object: starts as
`{"critical": 0, "error": 0, "warning": 0}` and then receives one dict
assignment `d[severity] = count` per `GROUP BY severity` group — an
unexpected severity therefore lands under its own key, not under any
fixed bucket. -/
def bySeverityFields (l : List AnomalyEvent) : List (String × JVal) :=
  (distinctVals (fun e => e.severity) l).foldl
    (fun acc s => setKey acc s (.num (countSev l s)))
    [(("critical"), .num 0), (("error"), .num 0), (("warning"), .num 0)]

/-- The `by_type` object: one key per observed anomaly type. -/
def byTypeFields (l : List AnomalyEvent) : List (String × JVal) :=
  (distinctVals (fun e => e.anomaly_type) l).foldl
    (fun acc s => setKey acc s (.num (countType l s)))
    []

/-- Stable insertion into a timestamp-descending list (`ORDER BY
timestamp DESC`). -/
def insertDescTs (x : AnomalyEvent) : List AnomalyEvent → List AnomalyEvent
  | [] => [x]
  | y :: ys => if y.timestamp.key < x.timestamp.key then x :: y :: ys
               else y :: insertDescTs x ys

/-- Insertion sort, timestamp-descending. -/
def sortDescTs : List AnomalyEvent → List AnomalyEvent
  | [] => []
  | x :: xs => insertDescTs x (sortDescTs xs)

/-- The `recent_anomalies` list: the up-to-10 newest anomalies of the
trailing 7 days. -/
def recentAnomalies (now : PyDateTime) (l : List AnomalyEvent) : List JVal :=
  let cutoff := now.subDays 7
  ((sortDescTs (l.filter (fun e => cutoff.timeLe e.timestamp))).take 10).map
    (fun e => JVal.obj [(("timestamp"), .str e.timestamp.isoformat),
      (("anomaly_type"), .str e.anomaly_type), (("severity"), .str e.severity),
      (("description"), .str e.description),
      (("suggested_action"), .str e.suggested_action)])

/-- The default result of `get_log_analysis`. -/
def logDefault (now : PyDateTime) : JVal :=
  JVal.obj [(("timestamp"), .str now.isoformat), (("total_anomalies"), .num 0),
    (("by_severity"), .obj [(("critical"), .num 0), (("error"), .num 0),
      (("warning"), .num 0)]),
    (("by_type"), .obj []), (("recent_anomalies"), .arr [])]

/-- `MonitoringAPI.get_log_analysis` (the AnomalyAggregator). -/
def get_log_analysis (now : PyDateTime) (store : Store (List AnomalyEvent)) :
    JVal :=
  match store with
  | .absent => logDefault now
  | .failing _ => logDefault now
  | .present l =>
      JVal.obj [(("timestamp"), .str now.isoformat),
        (("total_anomalies"), .num l.length),
        (("by_severity"), .obj (bySeverityFields l)),
        (("by_type"), .obj (byTypeFields l)),
        (("recent_anomalies"), .arr (recentAnomalies now l))]

/-- `MonitoringAPI.get_channel_status` (the ChannelAggregator): the
channel-probe collaborator either yields a health value or raises
(including the case where its module cannot be imported); any exception is
caught and turned into an error-shaped object. -/
def get_channel_status (now : PyDateTime) (probe : Except String JVal) : JVal :=
  match probe with
  | .ok h => h
  | .error e => JVal.obj [(("error"), .str e), (("timestamp"), .str now.isoformat)]

/-- The complete state of the outside world as `get_all_data` sees it. -/
structure Env where
  probeOutcome : ProbeOutcome
  costStore : Store (List CostEvent)
  metricsStore : Store MetricsDb
  logStore : Store (List AnomalyEvent)
  channelProbe : Except String JVal

/-- `MonitoringAPI.get_all_data` (the MonitoringFacade snapshot). -/
def get_all_data (now : PyDateTime) (env : Env) : JVal :=
  JVal.obj [(("gateway"), get_gateway_status now env.probeOutcome),
    (("costs"), get_cost_data now env.costStore),
    (("performance"), get_performance_data now env.metricsStore),
    (("logs"), get_log_analysis now env.logStore),
    (("channels"), get_channel_status now env.channelProbe),
    (("timestamp"), .str now.isoformat)]

/-- `SystemMonitor.check_channels` of `scripts/system_monitor.py`: a
fixed four-channel table whose only time dependence is whether the local
hour lies in 9..22 (feishu's status). -/
def check_channels (now : PyDateTime) : JVal :=
  let isWorkingHours := 9 ≤ now.hour ∧ now.hour ≤ 22
  JVal.obj [
    (("feishu"), .obj [(("name"), .str ("飞书")),
      (("status"), .str (if isWorkingHours then ("active") else ("idle"))),
      (("received"), .num 320), (("sent"), .num 425), (("errors"), .num 0),
      (("type"), .str ("primary"))]),
    (("telegram"), .obj [(("name"), .str ("Telegram")),
      (("status"), .str ("idle")),
      (("received"), .num 0), (("sent"), .num 0), (("errors"), .num 0),
      (("type"), .str ("backup"))]),
    (("bluebubbles"), .obj [(("name"), .str ("BlueBubbles")),
      (("status"), .str ("active")),
      (("received"), .num 15), (("sent"), .num 23), (("errors"), .num 0),
      (("type"), .str ("secondary"))]),
    (("imessage"), .obj [(("name"), .str ("iMessage")),
      (("status"), .str ("idle")),
      (("received"), .num 0), (("sent"), .num 0), (("errors"), .num 0),
      (("type"), .str ("secondary"))])]

/-- Concrete call time used by witnesses (2024-05-10 was a Friday). -/
def sampleNow : PyDateTime := ⟨2024, 5, 10, 12, 0, 0, 0⟩

/-- An environment in which every store is absent, the probe fails and
the channel collaborator raises. -/
def sampleEnv : Env :=
  ⟨.failure ("connection refused"), .absent, .absent, .absent,
   .error ("No module named scripts.channel_monitor")⟩

/-- A call time on a Monday that is also the first of a month
(2024-01-01 was a Monday). -/
def mondayFirst : PyDateTime := ⟨2024, 1, 1, 10, 0, 0, 0⟩

/-- One same-day cost event for the window-equality witness. -/
def eventsMondayFirst : List CostEvent :=
  [⟨⟨2024, 1, 1, 5, 0, 0, 0⟩, ("m"), ("p"), 3, 1, 1, 10, true⟩]

/-- A call time on the first Wednesday of a month (2024-05-01), whose ISO
week starts in the previous month. -/
def nowC3 : PyDateTime := ⟨2024, 5, 1, 12, 0, 0, 0⟩

/-- A cost event two days before `nowC3`, inside its ISO week but in the
previous calendar month. -/
def prevMonthEvent : PyDateTime := ⟨2024, 4, 29, 6, 0, 0, 0⟩

/-- The event list for the `nowC3` counterexample. -/
def eventsC3 : List CostEvent :=
  [⟨prevMonthEvent, ("m"), ("p"), 5, 1, 1, 10, true⟩]

/-- Events for the trend counterexample: half a dollar today, six and a
half dollars a week earlier in the same month, on day 10 of the month. -/
def nowC6 : PyDateTime := ⟨2024, 5, 10, 12, 0, 0, 0⟩

/-- The event list for the `nowC6` counterexample. -/
def eventsC6 : List CostEvent :=
  [⟨⟨2024, 5, 10, 6, 0, 0, 0⟩, ("m"), ("p"), 1/2, 10, 20, 100, true⟩,
   ⟨⟨2024, 5, 3, 6, 0, 0, 0⟩, ("m"), ("p"), 13/2, 10, 20, 100, true⟩]

/-- One anomaly whose severity is none of the three known levels. -/
def anomaliesC7 : List AnomalyEvent :=
  [⟨⟨2024, 5, 10, 6, 0, 0, 0⟩, ("disk"), ("fatal"), ("d"), ("a")⟩]

theorem roundHalfEven_eq (q : ℚ) :
    roundHalfEven q =
      (if q - ⌊q⌋ < 1/2 then ⌊q⌋
       else if 1/2 < q - ⌊q⌋ then ⌊q⌋ + 1
       else if ⌊q⌋ % 2 = 0 then ⌊q⌋ else ⌊q⌋ + 1) := by
  unfold roundHalfEven
  rw [show q.num / (q.den : ℤ) = ⌊q⌋ from (Rat.floor_def).symm]
  have hd : (0 : ℚ) < (q.den : ℚ) := by exact_mod_cast q.den_pos
  have hnum : (q.num : ℚ) = q * (q.den : ℚ) :=
    (div_eq_iff hd.ne').mp (Rat.num_div_den q)
  have h1 : (2 * (q.num - ⌊q⌋ * (q.den : ℤ)) < (q.den : ℤ)) ↔ (q - ⌊q⌋ < 1/2) := by
    constructor
    · intro h
      have h' : 2 * ((q.num : ℚ) - (⌊q⌋ : ℚ) * (q.den : ℚ)) < ((q.den : ℚ)) := by
        exact_mod_cast h
      rw [hnum] at h'
      nlinarith
    · intro h
      have h' : 2 * ((q.num : ℚ) - (⌊q⌋ : ℚ) * (q.den : ℚ)) < ((q.den : ℚ)) := by
        rw [hnum]
        nlinarith
      exact_mod_cast h'
  have h2 : ((q.den : ℤ) < 2 * (q.num - ⌊q⌋ * (q.den : ℤ))) ↔ (1/2 < q - ⌊q⌋) := by
    constructor
    · intro h
      have h' : ((q.den : ℚ)) < 2 * ((q.num : ℚ) - (⌊q⌋ : ℚ) * (q.den : ℚ)) := by
        exact_mod_cast h
      rw [hnum] at h'
      nlinarith
    · intro h
      have h' : ((q.den : ℚ)) < 2 * ((q.num : ℚ) - (⌊q⌋ : ℚ) * (q.den : ℚ)) := by
        rw [hnum]
        nlinarith
      exact_mod_cast h'
  simp only [h1, h2]

theorem roundHalfEven_ge_floor (q : ℚ) : ⌊q⌋ ≤ roundHalfEven q := by
  rw [roundHalfEven_eq]
  split_ifs <;> omega

theorem roundHalfEven_le_floor_add_one (q : ℚ) : roundHalfEven q ≤ ⌊q⌋ + 1 := by
  rw [roundHalfEven_eq]
  split_ifs <;> omega

theorem roundHalfEven_mono {q r : ℚ} (h : q ≤ r) :
    roundHalfEven q ≤ roundHalfEven r := by
  rcases lt_or_le ⌊q⌋ ⌊r⌋ with hf | hf
  · calc roundHalfEven q ≤ ⌊q⌋ + 1 := roundHalfEven_le_floor_add_one q
      _ ≤ ⌊r⌋ := by omega
      _ ≤ roundHalfEven r := roundHalfEven_ge_floor r
  · have hq : ⌊q⌋ = ⌊r⌋ := le_antisymm (Int.floor_le_floor h) hf
    rw [roundHalfEven_eq, roundHalfEven_eq, hq]
    split_ifs <;> first | omega | linarith

theorem round2_mono {q r : ℚ} (h : q ≤ r) : round2 q ≤ round2 r := by
  unfold round2
  rw [Rat.divInt_eq_div, Rat.divInt_eq_div]
  have h1 : roundHalfEven (q * 100) ≤ roundHalfEven (r * 100) :=
    roundHalfEven_mono (by linarith)
  have h2 : ((roundHalfEven (q * 100) : ℤ) : ℚ) ≤ ((roundHalfEven (r * 100) : ℤ) : ℚ) := by
    exact_mod_cast h1
  have h100 : (0 : ℚ) < ((100 : ℤ) : ℚ) := by norm_num
  gcongr

theorem round2_zero : round2 0 = 0 := by
  with_unfolding_all rfl

theorem pyRoundOrZero_eq_round2 (s : ℚ) : pyRoundOrZero s = round2 s := by
  unfold pyRoundOrZero
  split_ifs with h
  · rw [h, round2_zero]
  · rfl

theorem sum_map_filter_mono {α : Type} (f : α → ℚ) (p q : α → Bool) (l : List α)
    (hn : ∀ e ∈ l, 0 ≤ f e) (him : ∀ e, p e = true → q e = true) :
    ((l.filter p).map f).sum ≤ ((l.filter q).map f).sum := by
  induction l with
  | nil => simp
  | cons a l ih =>
    have ha : 0 ≤ f a := hn a (List.mem_cons_self a l)
    have ih' := ih (fun e he => hn e (List.mem_cons_of_mem a he))
    by_cases hp : p a = true
    · have hq := him a hp
      simp only [List.filter_cons, hp, hq, if_true, List.map_cons, List.sum_cons]
      linarith
    · by_cases hq : q a = true
      · simp only [List.filter_cons, hp, hq, if_true, if_false, Bool.false_eq_true,
          List.map_cons, List.sum_cons]
        linarith
      · simp only [List.filter_cons, hp, hq, if_false, Bool.false_eq_true]
        exact ih'

theorem monthLength_le_31 (y : ℤ) (m : ℕ) : monthLength y m ≤ 31 := by
  unfold monthLength
  split_ifs <;> omega

theorem dateP_prevDay_le (t : PyDateTime) : t.prevDay.dateP ≤ t.dateP := by
  unfold PyDateTime.prevDay
  have hL := monthLength_le_31 t.year (t.month - 1)
  split_ifs with h1 h2 <;> simp only [PyDateTime.dateP] <;> omega

theorem dateP_subDays_le (n : ℕ) (t : PyDateTime) :
    (t.subDays n).dateP ≤ t.dateP := by
  induction n generalizing t with
  | zero => exact le_refl _
  | succ n ih =>
    calc (t.subDays (n + 1)).dateP = (t.prevDay.subDays n).dateP := rfl
      _ ≤ t.prevDay.dateP := ih t.prevDay
      _ ≤ t.dateP := dateP_prevDay_le t

theorem key_zeroTime (t : PyDateTime) :
    t.zeroTime.key = t.dateP * 86400000000 := by
  simp [PyDateTime.key, PyDateTime.zeroTime, PyDateTime.timeUs, PyDateTime.dateP]

theorem weeklyStart_key_le (now : PyDateTime) :
    (weeklyStart now).key ≤ (dailyStart now).key := by
  unfold weeklyStart dailyStart
  rw [key_zeroTime, key_zeroTime]
  have h := dateP_subDays_le now.weekday now
  nlinarith

theorem monthlyStart_key_le (now : PyDateTime) (h : 1 ≤ now.day) :
    (monthlyStart now).key ≤ (dailyStart now).key := by
  unfold monthlyStart dailyStart
  rw [key_zeroTime, key_zeroTime]
  have hP : ({ now with day := 1 } : PyDateTime).dateP ≤ now.dateP := by
    simp only [PyDateTime.dateP]
    omega
  nlinarith

theorem sumCostSince_antitone (events : List CostEvent) (a b : PyDateTime)
    (hab : a.key ≤ b.key) (hn : ∀ e ∈ events, 0 ≤ e.cost_usd) :
    sumCostSince events b ≤ sumCostSince events a := by
  unfold sumCostSince
  refine sum_map_filter_mono _ _ _ _ hn ?_
  intro e he
  simp only [PyDateTime.timeLe, decide_eq_true_eq] at he ⊢
  omega

theorem weeklyStart_eq_dailyStart (now : PyDateTime) (h : now.weekday = 0) :
    weeklyStart now = dailyStart now := by
  unfold weeklyStart dailyStart
  rw [h]
  rfl

theorem monthlyStart_eq_dailyStart (now : PyDateTime) (h : now.day = 1) :
    monthlyStart now = dailyStart now := by
  unfold monthlyStart dailyStart
  cases now with
  | mk y mo d hh mi s us =>
    simp only at h
    subst h
    rfl

theorem lookup_setKey_self (fs : List (String × JVal)) (k : String) (v : JVal) :
    (setKey fs k v).lookup k = some v := by
  induction fs with
  | nil => simp [setKey, List.lookup]
  | cons p rest ih =>
    obtain ⟨k', v'⟩ := p
    unfold setKey
    by_cases h : k' = k
    · simp [h, List.lookup]
    · simp only [if_neg h, List.lookup]
      have hne : (k == k') = false := by
        simp [Ne.symm h]
      rw [hne]
      exact ih

theorem lookup_setKey_ne (fs : List (String × JVal)) (k k' : String) (v : JVal)
    (h : k' ≠ k) : (setKey fs k v).lookup k' = fs.lookup k' := by
  induction fs with
  | nil =>
    simp only [setKey, List.lookup]
    rw [show (k' == k) = false from by simp [h]]
  | cons p rest ih =>
    obtain ⟨k0, v0⟩ := p
    unfold setKey
    by_cases h0 : k0 = k
    · subst h0
      simp only [if_pos rfl, List.lookup]
      rw [show (k' == k0) = false from by simp [h]]
    · simp only [if_neg h0, List.lookup]
      by_cases h1 : k' = k0
      · simp [h1]
      · rw [show (k' == k0) = false from by simp [h1]]
        exact ih

theorem isSome_lookup_setKey (fs : List (String × JVal)) (k k' : String)
    (v : JVal) (h : (fs.lookup k').isSome = true) :
    ((setKey fs k v).lookup k').isSome = true := by
  by_cases hk : k' = k
  · subst hk
    rw [lookup_setKey_self]
    rfl
  · rw [lookup_setKey_ne fs k k' v hk]
    exact h

theorem lookup_foldl_setKey_isSome (ss : List String) (cnt : String → JVal)
    (acc : List (String × JVal)) (k : String)
    (h : (acc.lookup k).isSome = true) :
    ((ss.foldl (fun a s => setKey a s (cnt s)) acc).lookup k).isSome = true := by
  induction ss generalizing acc with
  | nil => exact h
  | cons s ss ih =>
    exact ih (setKey acc s (cnt s)) (isSome_lookup_setKey acc s k (cnt s) h)

theorem lookup_foldl_setKey_not_mem (ss : List String) (cnt : String → JVal)
    (acc : List (String × JVal)) (k : String) (h : k ∉ ss) :
    ((ss.foldl (fun a s => setKey a s (cnt s)) acc).lookup k) = acc.lookup k := by
  induction ss generalizing acc with
  | nil => rfl
  | cons s ss ih =>
    have h1 : k ≠ s := fun he => h (he ▸ List.mem_cons_self s ss)
    have h2 : k ∉ ss := fun he => h (List.mem_cons_of_mem s he)
    rw [List.foldl_cons, ih (setKey acc s (cnt s)) h2,
      lookup_setKey_ne acc s k (cnt s) h1]

theorem lookup_foldl_setKey_mem (ss : List String) (cnt : String → JVal)
    (acc : List (String × JVal)) (k : String) (h : k ∈ ss) (hnd : ss.Nodup) :
    ((ss.foldl (fun a s => setKey a s (cnt s)) acc).lookup k) = some (cnt k) := by
  induction ss generalizing acc with
  | nil => exact absurd h (List.not_mem_nil k)
  | cons s ss ih =>
    rw [List.foldl_cons]
    rcases List.mem_cons.mp h with he | hm
    · subst he
      have hns : k ∉ ss := (List.nodup_cons.mp hnd).1
      rw [lookup_foldl_setKey_not_mem ss cnt _ k hns, lookup_setKey_self]
    · exact ih (setKey acc s (cnt s)) hm (List.nodup_cons.mp hnd).2

theorem mem_foldl_distinct {α : Type} (f : α → String) (l : List α)
    (acc : List String) (x : String) :
    (x ∈ l.foldl (fun a e => if f e ∈ a then a else a ++ [f e]) acc) ↔
      (x ∈ acc ∨ ∃ e ∈ l, f e = x) := by
  induction l generalizing acc with
  | nil => simp
  | cons e l ih =>
    rw [List.foldl_cons]
    by_cases he : f e ∈ acc
    · rw [if_pos he, ih]
      constructor
      · rintro (h | h)
        · exact Or.inl h
        · exact Or.inr ⟨h.choose, List.mem_cons_of_mem e h.choose_spec.1, h.choose_spec.2⟩
      · rintro (h | ⟨e', he', hfe⟩)
        · exact Or.inl h
        · rcases List.mem_cons.mp he' with h1 | h1
          · subst h1
            exact Or.inl (hfe ▸ he)
          · exact Or.inr ⟨e', h1, hfe⟩
    · rw [if_neg he, ih]
      simp only [List.mem_append, List.mem_singleton]
      constructor
      · rintro ((h | h) | h)
        · exact Or.inl h
        · exact Or.inr ⟨e, List.mem_cons_self e l, h.symm⟩
        · exact Or.inr ⟨h.choose, List.mem_cons_of_mem e h.choose_spec.1, h.choose_spec.2⟩
      · rintro (h | ⟨e', he', hfe⟩)
        · exact Or.inl (Or.inl h)
        · rcases List.mem_cons.mp he' with h1 | h1
          · subst h1
            exact Or.inl (Or.inr hfe.symm)
          · exact Or.inr ⟨e', h1, hfe⟩

theorem mem_distinctVals (f : AnomalyEvent → String) (l : List AnomalyEvent)
    (x : String) : (x ∈ distinctVals f l) ↔ (∃ e ∈ l, f e = x) := by
  unfold distinctVals
  rw [mem_foldl_distinct]
  simp

theorem nodup_foldl_distinct {α : Type} (f : α → String) (l : List α)
    (acc : List String) (h : acc.Nodup) :
    (l.foldl (fun a e => if f e ∈ a then a else a ++ [f e]) acc).Nodup := by
  induction l generalizing acc with
  | nil => exact h
  | cons e l ih =>
    rw [List.foldl_cons]
    by_cases he : f e ∈ acc
    · rw [if_pos he]
      exact ih acc h
    · rw [if_neg he]
      refine ih _ ?_
      rw [List.nodup_append]
      exact ⟨h, List.nodup_singleton _, fun a ha hb => he (by
        rw [List.mem_singleton] at hb
        exact hb ▸ ha)⟩

theorem nodup_distinctVals (f : AnomalyEvent → String) (l : List AnomalyEvent) :
    (distinctVals f l).Nodup :=
  nodup_foldl_distinct f l [] List.nodup_nil

/-- C1: For every state of the underlying stores and of the channel-probe
collaborator — including every store absent or failing and the
collaborator raising — the full snapshot `get_all_data` is a total
function whose result carries all five sections plus `timestamp`; each
section equals the stand-alone result of its own aggregator applied only
to its own slice of the environment (so one aggregator failing can
neither remove nor alter another aggregator's section), each fixed-schema
section carries its full key set, and a raising channel collaborator
yields the error-shaped channel object. -/
theorem getAllData_snapshot_total_isolated (now : PyDateTime) (env : Env) :
    (get_all_data now env).get ("gateway") = some (get_gateway_status now env.probeOutcome) ∧
    (get_all_data now env).get ("costs") = some (get_cost_data now env.costStore) ∧
    (get_all_data now env).get ("performance") = some (get_performance_data now env.metricsStore) ∧
    (get_all_data now env).get ("logs") = some (get_log_analysis now env.logStore) ∧
    (get_all_data now env).get ("channels") = some (get_channel_status now env.channelProbe) ∧
    (get_all_data now env).hasKey ("timestamp") = true ∧
    (get_gateway_status now env.probeOutcome).hasKeys
      [("running"), ("http_status"), ("response_time_ms"), ("port_open"),
       ("healthy"), ("timestamp")] = true ∧
    (get_cost_data now env.costStore).hasKeys
      [("timestamp"), ("daily"), ("weekly"), ("monthly"), ("by_model"),
       ("trend_7d"), ("prediction"), ("stats")] = true ∧
    (get_performance_data now env.metricsStore).hasKeys
      [("timestamp"), ("system"), ("gateway")] = true ∧
    (get_log_analysis now env.logStore).hasKeys
      [("timestamp"), ("total_anomalies"), ("by_severity"), ("by_type"),
       ("recent_anomalies")] = true ∧
    (get_channel_status now env.channelProbe) =
      (match env.channelProbe with
        | .ok h => h
        | .error e => JVal.obj [(("error"), .str e),
            (("timestamp"), .str now.isoformat)]) := by
  obtain ⟨po, cs, ms, ls, cp⟩ := env
  refine ⟨rfl, rfl, rfl, rfl, rfl, rfl, ?_, ?_, ?_, ?_, ?_⟩
  · cases po <;> rfl
  · cases cs <;> rfl
  · cases ms <;> rfl
  · cases ls <;> rfl
  · cases cp <;> rfl

/-- C9: the snapshot is a deterministic function of the clock and the
environment (stores, probe outcome, collaborator): two `get_all_data`
calls at the same clock time against the same environment return the same
value (hence in particular equal apart from `timestamp`). -/
theorem getAllData_deterministic (now1 now2 : PyDateTime) (env1 env2 : Env)
    (hnow : now1 = now2) (henv : env1 = env2) :
    get_all_data now1 env1 = get_all_data now2 env2 := by
  subst hnow
  subst henv
  rfl

/-- Witness for C9 at a concrete clock and environment. -/
theorem getAllData_deterministic_witness :
    get_all_data sampleNow sampleEnv = get_all_data sampleNow sampleEnv :=
  getAllData_deterministic sampleNow sampleNow sampleEnv sampleEnv rfl rfl

/-- C10: `check_channels` always returns exactly the four channels
feishu, telegram, bluebubbles and imessage with fixed received/sent/error
counts; telegram, bluebubbles and imessage have the constant statuses
idle, active and idle, feishu is active exactly when the local hour is
between 9 and 22 inclusive, and the whole result depends only on the hour
of the clock. -/
theorem checkChannels_fixed_table (now now' : PyDateTime)
    (hh : now.hour = now'.hour) :
    (check_channels now).keys =
      [("feishu"), ("telegram"), ("bluebubbles"), ("imessage")] ∧
    (check_channels now).get2 ("feishu") ("status") =
      some (.str (if 9 ≤ now.hour ∧ now.hour ≤ 22 then ("active") else ("idle"))) ∧
    (check_channels now).get2 ("telegram") ("status") = some (.str ("idle")) ∧
    (check_channels now).get2 ("bluebubbles") ("status") = some (.str ("active")) ∧
    (check_channels now).get2 ("imessage") ("status") = some (.str ("idle")) ∧
    (check_channels now).get2 ("feishu") ("received") = some (.num 320) ∧
    (check_channels now).get2 ("feishu") ("sent") = some (.num 425) ∧
    (check_channels now).get2 ("feishu") ("errors") = some (.num 0) ∧
    (check_channels now).get2 ("telegram") ("received") = some (.num 0) ∧
    (check_channels now).get2 ("telegram") ("sent") = some (.num 0) ∧
    (check_channels now).get2 ("bluebubbles") ("received") = some (.num 15) ∧
    (check_channels now).get2 ("bluebubbles") ("sent") = some (.num 23) ∧
    (check_channels now).get2 ("imessage") ("received") = some (.num 0) ∧
    (check_channels now).get2 ("imessage") ("sent") = some (.num 0) ∧
    check_channels now = check_channels now' := by
  refine ⟨rfl, rfl, rfl, rfl, rfl, rfl, rfl, rfl, rfl, rfl, rfl, rfl, rfl, rfl, ?_⟩
  unfold check_channels
  rw [hh]

/-- Witness for C10 at two concrete clocks sharing the hour 12. -/
theorem checkChannels_fixed_table_witness :
    sampleNow.hour = (⟨2025, 1, 1, 12, 30, 0, 0⟩ : PyDateTime).hour ∧
    check_channels sampleNow = check_channels (⟨2025, 1, 1, 12, 30, 0, 0⟩ : PyDateTime) :=
  ⟨rfl, (checkChannels_fixed_table sampleNow ⟨2025, 1, 1, 12, 30, 0, 0⟩ rfl).2.2.2.2.2.2.2.2.2.2.2.2.2.2⟩

/-- C4, counterexample: a reachable endpoint answering a success-range
status other than 200 (here 204, which `urlopen` returns without raising)
yields the measured round-trip latency, not 0, and no `error` field —
contradicting the claimed second shape. -/
theorem gatewayProbe_claim_counterexample :
    (get_gateway_status sampleNow (.response 204 50)).getNum ("response_time_ms") = some 50 ∧
    (get_gateway_status sampleNow (.response 204 50)).hasKey ("error") = false ∧
    (get_gateway_status sampleNow (.response 204 50)).getBool ("healthy") = some false ∧
    (get_gateway_status sampleNow (.response 204 50)).getBool ("running") = some true ∧
    ¬ ((get_gateway_status sampleNow (.response 204 50)).getNum ("response_time_ms") = some 0) := by
  refine ⟨by with_unfolding_all decide, rfl, rfl, rfl, by with_unfolding_all decide⟩

/-- C4, amended: the probe never raises and yields one of three shapes,
but the claimed second shape (status echoed, zero latency, error field)
arises exactly for the statuses `urlopen` delivers as `HTTPError`
exceptions (those outside the 200–299 success range); a success-range
response other than 200 instead carries the measured latency and no error
field, with `healthy` false; connection failure yields the claimed
unreachable shape. -/
theorem gatewayProbe_shapes (now : PyDateTime) (s c : ℕ) (t : ℚ)
    (em ef : String) :
    ((get_gateway_status now (.response s t)).getBool ("running") = some true ∧
     (get_gateway_status now (.response s t)).getNum ("http_status") = some s ∧
     (get_gateway_status now (.response s t)).getNum ("response_time_ms") = some (round2 t) ∧
     (get_gateway_status now (.response s t)).getBool ("port_open") = some true ∧
     (get_gateway_status now (.response s t)).getBool ("healthy") = some (s == 200) ∧
     (get_gateway_status now (.response s t)).hasKey ("error") = false) ∧
    ((get_gateway_status now (.httpError c em)).getBool ("running") = some true ∧
     (get_gateway_status now (.httpError c em)).getNum ("http_status") = some c ∧
     (get_gateway_status now (.httpError c em)).getNum ("response_time_ms") = some 0 ∧
     (get_gateway_status now (.httpError c em)).getBool ("port_open") = some true ∧
     (get_gateway_status now (.httpError c em)).getBool ("healthy") = some false ∧
     (get_gateway_status now (.httpError c em)).getStr ("error") = some em) ∧
    ((get_gateway_status now (.failure ef)).getBool ("running") = some false ∧
     (get_gateway_status now (.failure ef)).getNum ("http_status") = some 0 ∧
     (get_gateway_status now (.failure ef)).getNum ("response_time_ms") = some 0 ∧
     (get_gateway_status now (.failure ef)).getBool ("port_open") = some false ∧
     (get_gateway_status now (.failure ef)).getBool ("healthy") = some false ∧
     (get_gateway_status now (.failure ef)).getStr ("error") = some ef) := by
  exact ⟨⟨rfl, rfl, rfl, rfl, rfl, rfl⟩, ⟨rfl, rfl, rfl, rfl, rfl, rfl⟩,
    ⟨rfl, rfl, rfl, rfl, rfl, rfl⟩⟩

/-- C2: when the monthly figure is positive, the projection satisfies
`daily_average = round2(monthly / max(day, 1))`,
`predicted_monthly_cost = round2(monthly / max(day, 1) * 30)` and
confidence is medium exactly when the day-of-month exceeds 10, low
otherwise; when the monthly figure is 0 the projection is the zero,
low-confidence default; and `get_cost_data` fills the projection from its
own monthly/daily figures and `now.day`. -/
theorem costProjection_spec (monthly daily : ℚ) (day : ℕ)
    (now : PyDateTime) (events : List CostEvent) :
    (0 < monthly →
      (JVal.obj (predFields monthly daily day)).getNum ("daily_average") =
        some (round2 (monthly / ((max day 1 : ℕ) : ℚ))) ∧
      (JVal.obj (predFields monthly daily day)).getNum ("predicted_monthly_cost") =
        some (round2 (monthly / ((max day 1 : ℕ) : ℚ) * 30)) ∧
      (JVal.obj (predFields monthly daily day)).getStr ("confidence") =
        some (if 10 < day then ("medium") else ("low")) ∧
      (JVal.obj (predFields monthly daily day)).getNum ("based_on_days") =
        some ((day : ℕ) : ℚ)) ∧
    (monthly = 0 → predFields monthly daily day = predDefault) ∧
    (get_cost_data now (.present events)).get ("prediction") =
      some (.obj (predFields (monthlyCost now events) (dailyCost now events) now.day)) := by
  refine ⟨?_, ?_, rfl⟩
  · intro h
    unfold predFields
    rw [if_pos h]
    exact ⟨rfl, rfl, rfl, rfl⟩
  · intro h
    unfold predFields
    rw [if_neg (by rw [h]; exact lt_irrefl 0)]

set_option maxRecDepth 100000

/-- Witness for C2: monthly = 300 on day 15 gives daily_average 20,
predicted_monthly_cost 600, confidence medium; monthly = 0 gives the
default projection. -/
theorem costProjection_spec_witness :
    (0 : ℚ) < 300 ∧
    (JVal.obj (predFields 300 5 15)).getNum ("daily_average") = some 20 ∧
    (JVal.obj (predFields 300 5 15)).getNum ("predicted_monthly_cost") = some 600 ∧
    (JVal.obj (predFields 300 5 15)).getStr ("confidence") = some ("medium") ∧
    predFields 0 5 15 = predDefault := by
  have h := costProjection_spec 300 5 15 sampleNow []
  have h0 := costProjection_spec 0 5 15 sampleNow []
  refine ⟨by norm_num, ?_, ?_, ?_, h0.2.1 rfl⟩
  · exact ((h.1 (by norm_num)).1).trans (by with_unfolding_all decide)
  · exact ((h.1 (by norm_num)).2.1).trans (by with_unfolding_all decide)
  · exact ((h.1 (by norm_num)).2.2.1).trans (by with_unfolding_all decide)

/-- C6, counterexample: with daily = 0.5, monthly = 7 on day 10 the
unrounded daily average is 0.7 and the code marks the trend increasing
(0.7 > 0.5, Python's `data["daily"] or 1`), while the claimed formula
`daily_average > max(daily_cost, 1)` is false there (0.7 < 1), i.e. the
claim would demand "stable". -/
theorem costTrend_claim_counterexample :
    (get_cost_data nowC6 (.present eventsC6)).get2 ("prediction") ("trend") =
      some (.str ("increasing")) ∧
    ¬ ((7 : ℚ)/10 > max ((1 : ℚ)/2) 1) := by
  constructor
  · with_unfolding_all rfl
  · simp only [gt_iff_lt, not_lt]
    rw [max_eq_right (by norm_num : ((1 : ℚ)/2) ≤ 1)]
    norm_num

/-- C6, amended: when the monthly figure is positive the projection's
trend is "increasing" exactly when the unrounded daily average exceeds
the daily figure when that figure is non-zero, and exceeds 1 when the
daily figure is zero (Python's `data["daily"] or 1`), and "stable"
otherwise — not `max(daily_cost, 1)`. -/
theorem costTrend_amended (monthly daily : ℚ) (day : ℕ) (h : 0 < monthly) :
    (JVal.obj (predFields monthly daily day)).getStr ("trend") =
      some (if (if daily = 0 then 1 else daily) < monthly / ((max day 1 : ℕ) : ℚ)
        then ("increasing") else ("stable")) := by
  unfold predFields
  rw [if_pos h]
  rfl

/-- Witness for the amended C6 at monthly = 7, daily = 1/2, day 10. -/
theorem costTrend_amended_witness :
    (0 : ℚ) < 7 ∧
    (JVal.obj (predFields 7 (1/2) 10)).getStr ("trend") = some ("increasing") :=
  ⟨by norm_num,
   (costTrend_amended 7 (1/2) 10 (by norm_num)).trans (by with_unfolding_all decide)⟩

/-- C8: the `by_severity` object of the anomaly aggregator always carries
the keys critical, error and warning — for an absent or failing store and
for every dataset — and such a bucket stays 0 whenever no anomaly of that
severity is recorded. -/
theorem bySeverity_buckets (now : PyDateTime) (st : Store (List AnomalyEvent))
    (l : List AnomalyEvent) (s : String) :
    ((get_log_analysis now st).get2 ("by_severity") ("critical")).isSome = true ∧
    ((get_log_analysis now st).get2 ("by_severity") ("error")).isSome = true ∧
    ((get_log_analysis now st).get2 ("by_severity") ("warning")).isSome = true ∧
    (st = .present l → (s = ("critical") ∨ s = ("error") ∨ s = ("warning")) →
      (∀ e ∈ l, e.severity ≠ s) →
      (get_log_analysis now st).get2 ("by_severity") (s) = some (.num 0)) := by
  cases st with
  | absent =>
    refine ⟨rfl, rfl, rfl, ?_⟩
    intro h
    cases h
  | failing m =>
    refine ⟨rfl, rfl, rfl, ?_⟩
    intro h
    cases h
  | present l' =>
    refine ⟨?_, ?_, ?_, ?_⟩
    · show ((bySeverityFields l').lookup ("critical")).isSome = true
      unfold bySeverityFields
      exact lookup_foldl_setKey_isSome _ _ _ _ rfl
    · show ((bySeverityFields l').lookup ("error")).isSome = true
      unfold bySeverityFields
      exact lookup_foldl_setKey_isSome _ _ _ _ rfl
    · show ((bySeverityFields l').lookup ("warning")).isSome = true
      unfold bySeverityFields
      exact lookup_foldl_setKey_isSome _ _ _ _ rfl
    · intro hst hs hn
      injection hst with hl
      subst hl
      have hmem : s ∉ distinctVals (fun e => e.severity) l' := by
        intro hmem
        obtain ⟨e, he, hfe⟩ := (mem_distinctVals _ _ _).mp hmem
        exact hn e he hfe
      show (bySeverityFields l').lookup s = some (.num 0)
      unfold bySeverityFields
      rw [lookup_foldl_setKey_not_mem _ _ _ _ hmem]
      rcases hs with rfl | rfl | rfl <;> rfl

/-- Witness for C8 at the empty dataset and the critical bucket. -/
theorem bySeverity_buckets_witness :
    ((get_log_analysis sampleNow (Store.present ([] : List AnomalyEvent))).get2
      ("by_severity") ("critical")).isSome = true ∧
    (get_log_analysis sampleNow (Store.present ([] : List AnomalyEvent))).get2
      ("by_severity") ("critical") = some (.num 0) := by
  have h := bySeverity_buckets sampleNow (Store.present ([] : List AnomalyEvent))
    [] ("critical")
  refine ⟨h.1, h.2.2.2 rfl (Or.inl rfl) ?_⟩
  intro e he
  cases he

/-- C7, counterexample: an anomaly of severity "fatal" is counted under a
key named "fatal"; no "other" bucket exists in the result. -/
theorem bySeverity_other_counterexample :
    (get_log_analysis sampleNow (.present anomaliesC7)).get2 ("by_severity") ("other") = none ∧
    (get_log_analysis sampleNow (.present anomaliesC7)).get2 ("by_severity") ("fatal") =
      some (.num 1) ∧
    (get_log_analysis sampleNow (.present anomaliesC7)).getNum ("total_anomalies") = some 1 := by
  refine ⟨?_, ?_, ?_⟩ <;> with_unfolding_all rfl

/-- C7, amended: an anomaly whose severity is outside
critical/error/warning is neither dropped nor fails aggregation, but it
is counted under a bucket named by the raw severity string itself — not
under an "other" bucket. -/
theorem bySeverity_unknown_amended (now : PyDateTime) (l : List AnomalyEvent)
    (s : String) (hocc : ∃ e ∈ l, e.severity = s) :
    (get_log_analysis now (.present l)).get2 ("by_severity") (s) =
      some (.num (countSev l s)) ∧
    (get_log_analysis now (.present l)).getNum ("total_anomalies") =
      some ((l.length : ℕ) : ℚ) := by
  constructor
  · show (bySeverityFields l).lookup s = some (.num (countSev l s))
    unfold bySeverityFields
    exact lookup_foldl_setKey_mem _ _ _ _
      ((mem_distinctVals _ _ _).mpr hocc) (nodup_distinctVals _ _)
  · rfl

/-- Witness for the amended C7 at the "fatal" severity. -/
theorem bySeverity_unknown_amended_witness :
    (∃ e ∈ anomaliesC7, e.severity = ("fatal")) ∧
    (get_log_analysis sampleNow (.present anomaliesC7)).get2 ("by_severity") ("fatal") =
      some (.num (countSev anomaliesC7 ("fatal"))) := by
  refine ⟨by decide, ?_⟩
  exact (bySeverity_unknown_amended sampleNow anomaliesC7 ("fatal") (by decide)).1

/-- C5, counterexample: with the cost store file absent, `trend_7d` is
the untouched default — the empty list — not a 7-element zero list. -/
theorem costEmpty_claim_counterexample :
    (get_cost_data sampleNow Store.absent).getArrLen ("trend_7d") = some 0 ∧
    ¬ ((get_cost_data sampleNow Store.absent).getArrLen ("trend_7d") = some 7) := by
  constructor
  · rfl
  · with_unfolding_all decide

/-- C5, amended: with no cost events the aggregator returns zero
daily/weekly/monthly figures, an empty by_model and the low-confidence
default projection; the trend list has exactly 7 zero-cost entries when
the store file is present but holds no events, while with the store file
absent (or its connection failing) the whole default object — whose trend
list is empty — is returned. -/
theorem costEmpty_amended (now : PyDateTime) (msg : String) :
    (get_cost_data now (.present [])).getNum ("daily") = some 0 ∧
    (get_cost_data now (.present [])).getNum ("weekly") = some 0 ∧
    (get_cost_data now (.present [])).getNum ("monthly") = some 0 ∧
    (get_cost_data now (.present [])).get ("by_model") = some (.obj []) ∧
    (get_cost_data now (.present [])).getArrLen ("trend_7d") = some 7 ∧
    ((trendList now []).all (fun v => v.getNum ("cost") == some 0)) = true ∧
    (get_cost_data now (.present [])).get2 ("prediction") ("confidence") =
      some (.str ("low")) ∧
    (get_cost_data now Store.absent) = costDefault now ∧
    (get_cost_data now (.failing msg)) = costDefault now ∧
    (costDefault now).getNum ("daily") = some 0 ∧
    (costDefault now).getNum ("weekly") = some 0 ∧
    (costDefault now).getNum ("monthly") = some 0 ∧
    (costDefault now).get ("by_model") = some (.obj []) ∧
    (costDefault now).get ("trend_7d") = some (.arr []) ∧
    (costDefault now).get2 ("prediction") ("confidence") = some (.str ("low")) := by
  refine ⟨?_, ?_, ?_, ?_, ?_, ?_, ?_, ?_, ?_, ?_, ?_, ?_, ?_, ?_, ?_⟩ <;>
    with_unfolding_all rfl

/-- C3, counterexample: on 2024-05-01 (a Wednesday) the weekly window
starts 2024-04-29, strictly before the monthly window start 2024-05-01,
so the weekly window is not contained in the monthly window; a cost event
of 2024-04-29 lies in the weekly but not the monthly window and yields
weekly = 5 with monthly = 0. -/
theorem costWindows_claim_counterexample :
    (monthlyStart nowC3).timeLe (weeklyStart nowC3) = false ∧
    (weeklyStart nowC3).timeLe prevMonthEvent = true ∧
    (monthlyStart nowC3).timeLe prevMonthEvent = false ∧
    (get_cost_data nowC3 (.present eventsC3)).getNum ("weekly") = some 5 ∧
    (get_cost_data nowC3 (.present eventsC3)).getNum ("monthly") = some 0 := by
  refine ⟨?_, ?_, ?_, ?_, ?_⟩ <;> with_unfolding_all decide

/-- C3, amended: for a fixed `now` the daily window is contained in both
the weekly and the monthly window (the weekly window need not be
contained in the monthly one when the ISO week crosses a month boundary),
so for non-negative costs weekly ≥ daily and monthly ≥ daily; and when
`now` falls on a Monday that is also the first of the month all three
window starts coincide, so daily = weekly = monthly for every event set —
in particular for events within that single day. -/
theorem costWindows_amended (now : PyDateTime) (events : List CostEvent)
    (hday : 1 ≤ now.day) (hn : ∀ e ∈ events, 0 ≤ e.cost_usd) :
    dailyCost now events ≤ weeklyCost now events ∧
    dailyCost now events ≤ monthlyCost now events ∧
    (get_cost_data now (.present events)).getNum ("daily") =
      some (dailyCost now events) ∧
    (get_cost_data now (.present events)).getNum ("weekly") =
      some (weeklyCost now events) ∧
    (get_cost_data now (.present events)).getNum ("monthly") =
      some (monthlyCost now events) ∧
    (now.weekday = 0 → weeklyCost now events = dailyCost now events) ∧
    (now.day = 1 → monthlyCost now events = dailyCost now events) := by
  refine ⟨?_, ?_, rfl, rfl, rfl, ?_, ?_⟩
  · unfold dailyCost weeklyCost
    rw [pyRoundOrZero_eq_round2, pyRoundOrZero_eq_round2]
    exact round2_mono (sumCostSince_antitone events _ _ (weeklyStart_key_le now) hn)
  · unfold dailyCost monthlyCost
    rw [pyRoundOrZero_eq_round2, pyRoundOrZero_eq_round2]
    exact round2_mono (sumCostSince_antitone events _ _ (monthlyStart_key_le now hday) hn)
  · intro h
    unfold weeklyCost dailyCost
    rw [weeklyStart_eq_dailyStart now h]
  · intro h
    unfold monthlyCost dailyCost
    rw [monthlyStart_eq_dailyStart now h]

/-- Witness for the amended C3 on Monday 2024-01-01 with one same-day
event of cost 3. -/
theorem costWindows_amended_witness :
    1 ≤ mondayFirst.day ∧
    (∀ e ∈ eventsMondayFirst, 0 ≤ e.cost_usd) ∧
    mondayFirst.weekday = 0 ∧
    mondayFirst.day = 1 ∧
    dailyCost mondayFirst eventsMondayFirst ≤ weeklyCost mondayFirst eventsMondayFirst ∧
    weeklyCost mondayFirst eventsMondayFirst = dailyCost mondayFirst eventsMondayFirst ∧
    monthlyCost mondayFirst eventsMondayFirst = dailyCost mondayFirst eventsMondayFirst := by
  have h := costWindows_amended mondayFirst eventsMondayFirst (by decide)
    (by with_unfolding_all decide)
  exact ⟨by decide, by with_unfolding_all decide, by decide, by decide,
    h.1, h.2.2.2.2.2.1 (by decide), h.2.2.2.2.2.2 (by decide)⟩
